import Mathlib

/-
Verification of the Invidious Kodi plugin (resources/lib/invidious_api.py and
resources/lib/invidious_plugin.py) against its natural-language specification.

The Python code is shallowly embedded: JSON objects become Lean structures
with Option fields (a missing key is none, and reading a missing key raises
a KeyError, modelled by the Err type); the generator-based list parser
becomes a function into Except Err (List ...); HTTP traffic is modelled by
an explicit trace of Request values, with the outcome of each exchange
supplied as a Bool parameter (the server is external).
-/

namespace Invidious

/-- Error kinds raised by the embedded code. keyError and indexError and
typeError embed the corresponding Python exceptions; authRequired embeds the
bare raise in the login path when no username is configured; httpError embeds
raise given by a failing raise_for_status; requestFailed embeds the bare raise
after a non-ok mutation response; unknownAction embeds the RuntimeError of the
dispatch fallthrough; autodetectionFailed embeds the ValueError raised when no
candidate instance passes the probe. -/
inductive Err where
  | keyError (key : String)
  | indexError
  | typeError
  | authRequired
  | httpError
  | requestFailed
  | unknownAction (action : String)
  | autodetectionFailed
deriving DecidableEq, Repr

/-- One entry of a videoThumbnails JSON list. -/
structure Thumb where
  quality : String
  url : String
deriving DecidableEq, Repr

/-- One entry of an authorThumbnails JSON list. -/
structure AuthorThumb where
  url : String
  height : Int
deriving DecidableEq, Repr

/-- A JSON item of a list response. Every key the parser touches is an
Option field; none means the key is absent from the JSON object. -/
structure Item where
  type : Option String := none
  lengthSeconds : Option Int := none
  videoThumbnails : Option (List Thumb) := none
  videoId : Option String := none
  title : Option String := none
  author : Option String := none
  description : Option String := none
  viewCount : Option Int := none
  published : Option Int := none
  authorThumbnails : Option (List AuthorThumb) := none
  authorId : Option String := none
  authorVerified : Option Bool := none
  subCount : Option Int := none
  playlistId : Option String := none
  playlistThumbnail : Option String := none
  videoCount : Option Int := none
deriving DecidableEq, Repr

/-- The VideoSearchResult namedtuple. -/
structure VideoSearchResult where
  type : String
  id : String
  thumbnail_url : String
  heading : String
  author : String
  description : String
  view_count : Int
  published : Int
  duration : Int
deriving DecidableEq, Repr

/-- The ChannelSearchResult namedtuple. -/
structure ChannelSearchResult where
  type : String
  id : String
  thumbnail_url : String
  heading : String
  description : String
  verified : Bool
  sub_count : Int
deriving DecidableEq, Repr

/-- The PlaylistSearchResult namedtuple. -/
structure PlaylistSearchResult where
  type : String
  id : String
  thumbnail_url : String
  heading : String
  channel : String
  channel_id : String
  verified : Bool
  video_count : Int
deriving DecidableEq, Repr

/-- The union type InvidiousApiResponseType. -/
inductive InvidiousApiResponse where
  | video (v : VideoSearchResult)
  | channel (c : ChannelSearchResult)
  | playlist (p : PlaylistSearchResult)
deriving DecidableEq, Repr

/-- The type attribute of a result record, as read by result.type in the
plugin (each namedtuple stores its tag as its first field). -/
def resultType : InvidiousApiResponse → String
  | .video v => v.type
  | .channel c => c.type
  | .playlist p => p.type

/-- Reading key from a JSON object: item[key] raises KeyError if absent. -/
def getKey {α : Type} (key : String) (v : Option α) : Except Err α :=
  match v with
  | some x => .ok x
  | none => .error (.keyError key)

/-- The thumbnail loop of the video branch (invidious_api.py lines 143-154):
a for loop that breaks at the first entry whose quality is high, with a
for-else fallback to the last list entry; indexing the empty list raises
IndexError. -/
def selectVideoThumb (thumbs : List Thumb) : Except Err String :=
  match thumbs.find? (fun t => t.quality == "high") with
  | some t => .ok t.url
  | none =>
    match thumbs.getLast? with
    | some t => .ok t.url
    | none => .error .indexError

/-- Embeds sorted(item[authorThumbnails], key=height, reverse=True)[0]
(invidious_api.py lines 169-173). The Python sort is stable, so the head of
the descending sort is the first list entry of maximal height; the theorem
maxAvatar_eq_head_mergeSort below proves this function equal to the head of
a stable descending merge sort. Returns none on the empty list (where the
Python indexing would raise IndexError). -/
def maxAvatar : List AuthorThumb → Option AuthorThumb
  | [] => none
  | a :: t =>
    match maxAvatar t with
    | none => some a
    | some m => if m.height > a.height then some m else some a

/-- The per-item normalization step of _parse_list_response
(invidious_api.py lines 137-199). Returns .ok none when the item is skipped
(non-positive duration, or unknown type, which is logged and skipped),
.ok (some r) when a record is yielded, .error when a Python exception would
be raised. noDesc is the canned localized string 30000 used as the default
description. -/
def parseItem (noDesc : String) (item : Item) :
    Except Err (Option InvidiousApiResponse) := do
  if item.type = none ∨ item.type = some "video" ∨ item.type = some "shortVideo" then
    let len ← getKey "lengthSeconds" item.lengthSeconds
    if ¬ len > 0 then
      return none
    else
      let thumbs ← getKey "videoThumbnails" item.videoThumbnails
      let url ← selectVideoThumb thumbs
      let vid ← getKey "videoId" item.videoId
      let title ← getKey "title" item.title
      let author ← getKey "author" item.author
      return some (.video ⟨"video", vid, url, title, author,
        item.description.getD noDesc, item.viewCount.getD (-1),
        item.published.getD 0, len⟩)
  else if item.type = some "channel" then
    let avatars ← getKey "authorThumbnails" item.authorThumbnails
    match maxAvatar avatars with
    | none => throw .indexError
    | some thumbnail =>
      let aid ← getKey "authorId" item.authorId
      let author ← getKey "author" item.author
      let descr ← getKey "description" item.description
      let verified ← getKey "authorVerified" item.authorVerified
      let subs ← getKey "subCount" item.subCount
      return some (.channel ⟨"channel", aid, "https:" ++ thumbnail.url,
        author, descr, verified, subs⟩)
  else if item.type = some "playlist" then
    let pid ← getKey "playlistId" item.playlistId
    let pthumb ← getKey "playlistThumbnail" item.playlistThumbnail
    let title ← getKey "title" item.title
    let author ← getKey "author" item.author
    let aid ← getKey "authorId" item.authorId
    let verified ← getKey "authorVerified" item.authorVerified
    let vcount ← getKey "videoCount" item.videoCount
    return some (.playlist ⟨"playlist", pid, pthumb, title, author,
      aid, verified, vcount⟩)
  else
    return none

/-- The whole generator loop of _parse_list_response over the item list
(after the videos-dict unwrapping): yields accumulate in order; an exception
raised at any item aborts the whole iteration. -/
def parseListResponse (noDesc : String) : List Item → Except Err (List InvidiousApiResponse)
  | [] => .ok []
  | item :: rest => do
    let r ← parseItem noDesc item
    let rs ← parseListResponse noDesc rest
    match r with
    | some x => return (x :: rs)
    | none => return rs

/-- The unknown-result-type guard of display_search_results
(invidious_plugin.py line 151): true exactly when the RuntimeError branch
would be taken. -/
def displayUnknownTypeCheck (r : InvidiousApiResponse) : Bool :=
  !(["video", "channel", "playlist"].contains (resultType r))

/-- SearchHistory.push (invidious_plugin.py lines 32-48), on the query list
loaded from the history file: remove the first pre-existing occurrence of the
query, insert the query at position 0, truncate to the configured depth, and
persist the result. list.remove removes the first occurrence, embedded by
List.erase. -/
def SearchHistory.push (depth : Nat) (queries : List String) (query : String) :
    List String :=
  let deduped := if query ∈ queries then queries.erase query else queries
  (query :: deduped).take depth

/-- One candidate from the instance directory: the dict part of an
[instancename, instance] pair of instances.json. The api field is a JSON
value that may be true, false or null (none). -/
structure InstanceInfo where
  type : String
  api : Option Bool
  uri : String
deriving DecidableEq, Repr

/-- The candidate filter of instance_autodetect (invidious_plugin.py line
101): declared type must be https and the declared api field must not be the
JSON literal false (a null api field passes, as in the Python test
instance[api] is not False). -/
def instanceEligible (inst : InstanceInfo) : Bool :=
  inst.type == "https" && !(inst.api == some false)

/-- The fixed, fairly randomly picked known-valid video id the liveness
probe fetches (invidious_plugin.py line 109). -/
def test_video_id : String := "1l2_uCyBXQ0"

/-- InvidiousPlugin.instance_autodetect (invidious_plugin.py lines 91-130),
over the decoded candidate list. probe u v models whether fetching video v
from instance u succeeds (the liveness probe); any probe exception is caught
and the loop continues. When the loop ends without a hit, a notification is
shown and a ValueError is raised, embedded as Err.autodetectionFailed. -/
def instance_autodetect (probe : String → String → Bool) :
    List (String × InstanceInfo) → Except Err String
  | [] => .error .autodetectionFailed
  | (_, inst) :: rest =>
    if instanceEligible inst then
      if probe inst.uri test_video_id then .ok inst.uri
      else instance_autodetect probe rest
    else instance_autodetect probe rest

/-- One entry of the formatStreams list of a video metadata record. -/
structure FormatStream where
  url : String
deriving DecidableEq, Repr

/-- The parts of the raw video metadata record that the stream selection of
play_video reads. -/
structure VideoInfo where
  dashUrl : Option String := none
  formatStreams : List FormatStream := []
deriving DecidableEq, Repr

/-- The resolved stream of play_video: either the DASH manifest URL (with
the inputstream properties, among them manifest_type mpd, set on the list
item), or a plain legacy stream URL. -/
inductive StreamChoice where
  | dash (url : String)
  | legacy (url : String)
deriving DecidableEq, Repr

/-- The stream-selection logic of InvidiousPlugin.play_video
(invidious_plugin.py lines 239-264): a DASH list item is built exactly when
disable_dash is off, the metadata has a dashUrl key, and the inputstream
helper capability check succeeds; in every other case the list item falls
back to the URL of the last formatStreams entry (indexing [-1] on an empty
list raises IndexError). -/
def play_video_stream (disable_dash inputstream_ok : Bool) (vi : VideoInfo) :
    Except Err StreamChoice :=
  match disable_dash, vi.dashUrl, inputstream_ok with
  | false, some url, true => .ok (.dash url)
  | _, _, _ =>
    match vi.formatStreams.getLast? with
    | some fs => .ok (.legacy fs.url)
    | none => .error .indexError

/-- The handler selected by one invocation of InvidiousPlugin.run. -/
inductive Dispatched where
  | mainMenu
  | searchMenu
  | newSearch
  | search (q : String)
  | playVideo (video_id : String)
  | viewChannel (channel_id : String)
  | viewPlaylist (playlist_id : String)
  | userFeed
  | userSubscriptions
  | specialList (name : String)
deriving DecidableEq, Repr

/-- The action names the dispatch table of run handles. The empty string is
included because the Python guard is the falsy test if not action, which
routes both a missing action and an empty action to the main menu. -/
def knownActions : List String :=
  ["", "search_menu", "new_search", "search", "play_video", "view_channel",
   "view_playlist", "user_feed", "user_subscriptions", "trending", "popular"]

/-- The dispatch table of InvidiousPlugin.run (invidious_plugin.py lines
351-394). action is args.get with default none; q, video_id, channel_id and
playlist_id are the respective first entries of the parsed query parameters
when present (reading an absent parameter raises KeyError). The final else
branch raises RuntimeError, embedded as Err.unknownAction. -/
def run_dispatch (action : Option String)
    (q video_id channel_id playlist_id : Option String) : Except Err Dispatched :=
  match action with
  | none => .ok .mainMenu
  | some a =>
    if a = "" then .ok .mainMenu
    else if a = "search_menu" then .ok .searchMenu
    else if a = "new_search" then .ok .newSearch
    else if a = "search" then
      match q with
      | some s => .ok (.search s)
      | none => .error (.keyError "q")
    else if a = "play_video" then
      match video_id with
      | some s => .ok (.playVideo s)
      | none => .error (.keyError "video_id")
    else if a = "view_channel" then
      match channel_id with
      | some s => .ok (.viewChannel s)
      | none => .error (.keyError "channel_id")
    else if a = "view_playlist" then
      match playlist_id with
      | some s => .ok (.viewPlaylist s)
      | none => .error (.keyError "playlist_id")
    else if a = "user_feed" then .ok .userFeed
    else if a = "user_subscriptions" then .ok .userSubscriptions
    else if a = "trending" ∨ a = "popular" then .ok (.specialList a)
    else .error (.unknownAction a)

/-- The host collaborator calls the claims distinguish. -/
inductive HostCall where
  | addMenuEntry
  | endOfListing
  | resolvePlayback
  | directPlay
deriving DecidableEq, Repr

/-- The listing and playback host-collaborator calls made by one invocation
of run, as a function of the dispatch outcome. The unknown-action
RuntimeError is raised in the final else branch of the dispatch table before
any handler runs, so an errored dispatch makes no collaborator call; every
listing handler ends with end_of_directory and the playback handler resolves
or direct-plays. The per-handler lists are coarse (a listing handler calls
add_directory_item once per entry); only emptiness versus non-emptiness is
used by the theorems. -/
def invocationListingPlaybackCalls : Except Err Dispatched → List HostCall
  | .error _ => []
  | .ok .mainMenu => [.addMenuEntry, .endOfListing]
  | .ok .searchMenu => [.addMenuEntry, .endOfListing]
  | .ok .newSearch => [.addMenuEntry, .endOfListing]
  | .ok (.search _) => [.addMenuEntry, .endOfListing]
  | .ok (.playVideo _) => [.resolvePlayback]
  | .ok (.viewChannel _) => [.addMenuEntry, .endOfListing]
  | .ok (.viewPlaylist _) => [.addMenuEntry, .endOfListing]
  | .ok .userFeed => [.addMenuEntry, .endOfListing]
  | .ok .userSubscriptions => [.addMenuEntry, .endOfListing]
  | .ok (.specialList _) => [.addMenuEntry, .endOfListing]

/-- The client state of InvidiousAPIClient that the authenticated operations
read: the authenticated flag, the optional credential pair, and the local
setting. A username of none embeds a falsy self.username (credentials not
configured). -/
structure Client where
  authenticated : Bool
  username : Option String
  password : Option String
  localSetting : Bool
deriving DecidableEq, Repr

/-- One HTTP exchange issued by the client, recorded in order of issue. -/
inductive Request where
  | get (path : String) (params : Option (List (String × String)))
  | post (path : String)
  | delete (path : String)
  | loginPost
deriving DecidableEq, Repr

/-- Python dict item assignment params[key] = val on a dict embedded as an
association list. -/
def dictSet (ps : List (String × String)) (key val : String) :
    List (String × String) :=
  if ps.any (fun p => p.1 == key) then
    ps.map (fun p => if p.1 == key then (key, val) else p)
  else ps ++ [(key, val)]

/-- InvidiousAPIClient._make_get_request (invidious_api.py lines 96-123), up
to the issuing of the GET request. When the local setting is enabled the
code assigns params[local] = true with no guard: on params = None this is
item assignment on None and raises TypeError before session.get runs. The
returned trace lists the HTTP requests issued; an error return carries the
requests issued before the failure. -/
def make_get_request (localSetting : Bool) (path : String)
    (params : Option (List (String × String))) : Except Err Unit × List Request :=
  if localSetting then
    match params with
    | none => (.error .typeError, [])
    | some ps => (.ok (), [.get path (some (dictSet ps "local" "true"))])
  else
    (.ok (), [.get path params])

/-- InvidiousAPIClient._login (invidious_api.py lines 79-94): a falsy
username raises (a bare raise, embedded as Err.authRequired) before any
request; otherwise the credentials are POSTed to the login endpoint, a
non-ok response raises via raise_for_status (Err.httpError), and an ok
response marks the client authenticated. loginOk models the HTTP outcome of
the login exchange. -/
def Client.login (c : Client) (loginOk : Bool) : Except Err Client × List Request :=
  match c.username with
  | none => (.error .authRequired, [])
  | some _ =>
    if loginOk then (.ok { c with authenticated := true }, [.loginPost])
    else (.error .httpError, [.loginPost])

/-- The login-on-demand prelude shared by the authenticated operations:
if not self.authenticated: self._login(). -/
def ensureAuthenticated (c : Client) (loginOk : Bool) :
    Except Err Client × List Request :=
  if c.authenticated then (.ok c, [])
  else Client.login c loginOk

/-- InvidiousAPIClient.subscribe (invidious_api.py lines 269-275): login on
demand, POST the subscription mutation, return None on an ok response and
raise (bare raise, embedded as Err.requestFailed) otherwise. respOk models
response.ok of the mutation exchange. -/
def subscribe (c : Client) (loginOk respOk : Bool) (channel_id : String) :
    Except Err Unit × List Request :=
  match ensureAuthenticated c loginOk with
  | (.error e, tr) => (.error e, tr)
  | (.ok _, tr) =>
    if respOk then (.ok (), tr ++ [.post ("auth/subscriptions/" ++ channel_id)])
    else (.error .requestFailed, tr ++ [.post ("auth/subscriptions/" ++ channel_id)])

/-- InvidiousAPIClient.unsubscribe (invidious_api.py lines 277-285): as
subscribe, with a DELETE request. -/
def unsubscribe (c : Client) (loginOk respOk : Bool) (channel_id : String) :
    Except Err Unit × List Request :=
  match ensureAuthenticated c loginOk with
  | (.error e, tr) => (.error e, tr)
  | (.ok _, tr) =>
    if respOk then (.ok (), tr ++ [.delete ("auth/subscriptions/" ++ channel_id)])
    else (.error .requestFailed, tr ++ [.delete ("auth/subscriptions/" ++ channel_id)])

/-- InvidiousAPIClient.mark_watched (invidious_api.py lines 287-293): as
subscribe, POSTing the watch-history mutation. -/
def mark_watched (c : Client) (loginOk respOk : Bool) (video_id : String) :
    Except Err Unit × List Request :=
  match ensureAuthenticated c loginOk with
  | (.error e, tr) => (.error e, tr)
  | (.ok _, tr) =>
    if respOk then (.ok (), tr ++ [.post ("auth/history/" ++ video_id)])
    else (.error .requestFailed, tr ++ [.post ("auth/history/" ++ video_id)])

/-- fetch_video_information (invidious_api.py lines 211-214), modelled up to
the issuing of its GET request (the parsing of the response body is
irrelevant to the request-phase claims). It calls _make_get_request with no
params argument. -/
def fetch_video_information (localSetting : Bool) (video_id : String) :
    Except Err Unit × List Request :=
  make_get_request localSetting ("videos/" ++ video_id) none

/-- fetch_channel_list (invidious_api.py lines 216-219), request phase. -/
def fetch_channel_list (localSetting : Bool) (channel_id : String) :
    Except Err Unit × List Request :=
  make_get_request localSetting ("channels/" ++ channel_id ++ "/videos") none

/-- fetch_playlist_list (invidious_api.py lines 221-224), request phase. -/
def fetch_playlist_list (localSetting : Bool) (playlist_id : String) :
    Except Err Unit × List Request :=
  make_get_request localSetting ("playlists/" ++ playlist_id) none

/-- fetch_special_list (invidious_api.py lines 226-229), request phase. -/
def fetch_special_list (localSetting : Bool) (special_list_name : String) :
    Except Err Unit × List Request :=
  make_get_request localSetting special_list_name none

/-- fetch_channel_info (invidious_api.py lines 249-267), request phase. -/
def fetch_channel_info (localSetting : Bool) (channel_id : String) :
    Except Err Unit × List Request :=
  make_get_request localSetting ("channels/" ++ channel_id) none

/-- fetch_feed (invidious_api.py lines 231-238), request phase: login on
demand, then a GET of auth/feed with no params argument. -/
def fetch_feed (c : Client) (loginOk : Bool) : Except Err Unit × List Request :=
  match ensureAuthenticated c loginOk with
  | (.error e, tr) => (.error e, tr)
  | (.ok c2, tr) =>
    match make_get_request c2.localSetting "auth/feed" none with
    | (r, tr2) => (r, tr ++ tr2)

/-- fetch_subscribed_channels (invidious_api.py lines 240-247), request
phase: login on demand, then a GET of auth/subscriptions with no params
argument. -/
def fetch_subscribed_channels (c : Client) (loginOk : Bool) :
    Except Err Unit × List Request :=
  match ensureAuthenticated c loginOk with
  | (.error e, tr) => (.error e, tr)
  | (.ok c2, tr) =>
    match make_get_request c2.localSetting "auth/subscriptions" none with
    | (r, tr2) => (r, tr ++ tr2)

/-- Fixture: a playlist-sourced video entry (no type key; description, view
count and publish date absent, as on playlist video entries). -/
def samplePlaylistVideoItem : Item :=
  { lengthSeconds := some 45,
    videoThumbnails := some [⟨"medium", "https://t/m.jpg"⟩],
    videoId := some "v2", title := some "T2", author := some "A2" }

/-- Fixture: a search video item whose high-quality thumbnail sits between
other qualities. -/
def sampleSearchVideoItem : Item :=
  { type := some "video", lengthSeconds := some 60,
    videoThumbnails := some [⟨"low", "https://t/lo.jpg"⟩,
      ⟨"high", "https://t/hi.jpg"⟩, ⟨"maxres", "https://t/mx.jpg"⟩],
    videoId := some "v3", title := some "T3", author := some "A3" }

/-- Fixture: a channel item whose only avatar URL is already absolute. -/
def sampleAbsoluteChannelItem : Item :=
  { type := some "channel",
    authorThumbnails := some [⟨"https://example.com/a.jpg", 512⟩],
    authorId := some "cid", author := some "Chan", description := some "d",
    authorVerified := some true, subCount := some 5 }

/-- Fixture: a channel item with protocol-relative avatars of heights 48,
512 and 176. -/
def sampleChannelItem : Item :=
  { type := some "channel",
    authorThumbnails := some [⟨"//e/a48.jpg", 48⟩, ⟨"//e/a512.jpg", 512⟩,
      ⟨"//e/a176.jpg", 176⟩],
    authorId := some "cid2", author := some "Ch", description := some "d2",
    authorVerified := some false, subCount := some 7 }

/-- Fixture: the avatar list of sampleChannelItem. -/
def sampleAvatars : List AuthorThumb :=
  [⟨"//e/a48.jpg", 48⟩, ⟨"//e/a512.jpg", 512⟩, ⟨"//e/a176.jpg", 176⟩]

/-- Fixture: a well-formed video item followed by an item of unrecognized
type. -/
def sampleMixedItems : List Item :=
  [{ type := some "video", lengthSeconds := some 60,
     videoThumbnails := some [⟨"high", "https://t/hq.jpg"⟩],
     videoId := some "v1", title := some "T", author := some "A" },
   { type := some "unknownKind" }]

/-- Fixture: the record list the parser yields on sampleMixedItems. -/
def sampleMixedResults : List InvidiousApiResponse :=
  [.video ⟨"video", "v1", "https://t/hq.jpg", "T", "A", "nd", -1, 0, 60⟩]

deriving instance DecidableEq for Except

theorem exceptBind_ok {ε α β : Type} (a : α) (g : α → Except ε β) :
    (Except.ok a : Except ε α) >>= g = g a := rfl

theorem exceptBind_error {ε α β : Type} (e : ε) (g : α → Except ε β) :
    (Except.error e : Except ε α) >>= g = Except.error e := rfl

theorem exceptPure {ε α : Type} (a : α) : (pure a : Except ε α) = Except.ok a := rfl

theorem push_nodup (depth : Nat) (H : List String) (q : String)
    (h : H.Nodup) : (SearchHistory.push depth H q).Nodup := by
  unfold SearchHistory.push
  apply (List.take_sublist _ _).nodup
  by_cases hq : q ∈ H
  · simp only [hq, if_pos]
    exact List.nodup_cons.mpr ⟨fun hc => ((h.mem_erase_iff).mp hc).1 rfl, h.erase q⟩
  · simp only [hq, if_neg, not_false_iff]
    exact List.nodup_cons.mpr ⟨hq, h⟩

/-- C4: pushing a query promotes it to the front without duplication, never
exceeds the configured depth, truncates from the old end, and pushing a new
query onto a full history drops exactly the oldest entry. The Nodup
hypothesis is the invariant of histories built by push itself, established
by push_nodup above (the history file starts empty). -/
theorem C4_search_history_push (depth : Nat) (H : List String) (q : String)
    (hd : 0 < depth) (hnd : H.Nodup) :
    (SearchHistory.push depth H q).head? = some q ∧
    (SearchHistory.push depth H q).length ≤ depth ∧
    (SearchHistory.push depth H q).count q = 1 ∧
    (SearchHistory.push depth H q) <+: q :: H.erase q ∧
    (q ∉ H → H.length = depth → SearchHistory.push depth H q = q :: H.dropLast) := by
  obtain ⟨d, rfl⟩ : ∃ d, depth = d + 1 := ⟨depth - 1, by omega⟩
  have hpush : SearchHistory.push (d + 1) H q =
      q :: (if q ∈ H then H.erase q else H).take d := by
    simp [SearchHistory.push]
  have hqnot : q ∉ (if q ∈ H then H.erase q else H) := by
    by_cases hq : q ∈ H
    · simp only [hq, if_pos]
      exact fun hc => ((hnd.mem_erase_iff).mp hc).1 rfl
    · simp [hq]
  refine ⟨by simp [hpush], ?_, ?_, ?_, ?_⟩
  · rw [hpush]
    simp only [List.length_cons]
    have := List.length_take_le d (if q ∈ H then H.erase q else H)
    omega
  · rw [hpush]
    rw [List.count_cons_self]
    have h0 : ((if q ∈ H then H.erase q else H).take d).count q = 0 := by
      rw [List.count_eq_zero]
      exact fun hc => hqnot ((List.take_sublist _ _).mem hc)
    omega
  · rw [hpush]
    rw [List.cons_prefix_cons]
    refine ⟨rfl, ?_⟩
    by_cases hq : q ∈ H
    · simpa [hq] using List.take_prefix d (H.erase q)
    · simp only [hq, if_neg, not_false_iff]
      rw [List.erase_of_not_mem hq]
      exact List.take_prefix d H
  · intro hq hlen
    have hdd : H.take d = H.dropLast := by
      rw [List.dropLast_eq_take]
      congr 1
      omega
    rw [hpush, if_neg hq, hdd]

theorem C4_witness :
    (0 < 10 ∧ (["A", "B", "Q", "C"] : List String).Nodup) ∧
    (SearchHistory.push 10 ["A", "B", "Q", "C"] "Q").head? = some "Q" ∧
    SearchHistory.push 10 ["A", "B", "Q", "C"] "Q" = ["Q", "A", "B", "C"] := by
  refine ⟨⟨by decide, by decide⟩,
    (C4_search_history_push 10 ["A", "B", "Q", "C"] "Q" (by decide) (by decide)).1, by decide⟩

/-- C5: autodetection scans the candidate directory in order and returns the
URL of the first candidate that is declared https, whose declared api field
is not false, and whose liveness probe of the fixed test video id succeeds;
it fails with the autodetection error when no candidate passes. -/
theorem C5_instance_autodetect (probe : String → String → Bool)
    (l : List (String × InstanceInfo)) :
    instance_autodetect probe l =
      match l.find? (fun p => instanceEligible p.2 && probe p.2.uri test_video_id) with
      | some p => .ok p.2.uri
      | none => .error .autodetectionFailed := by
  induction l with
  | nil => rfl
  | cons hd tl ih =>
    obtain ⟨nm, inst⟩ := hd
    by_cases he : instanceEligible inst
    · by_cases hp : probe inst.uri test_video_id
      · simp [instance_autodetect, he, hp, List.find?_cons]
      · simp [instance_autodetect, he, hp, List.find?_cons, ih]
    · simp [instance_autodetect, he, List.find?_cons, ih]

/-- C6: the resolved stream is the DASH manifest URL, with the manifest-type
metadata attached, exactly when DASH playback is not disabled, the metadata
has a manifest URL, and the inputstream capability check succeeds; in every
other case it is the URL of the last legacy formatStreams entry. -/
theorem C6_play_video_stream (dd ck : Bool) (vi : VideoInfo) :
    (∀ u, play_video_stream dd ck vi = .ok (.dash u) ↔
      (dd = false ∧ vi.dashUrl = some u ∧ ck = true)) ∧
    ((dd = true ∨ vi.dashUrl = none ∨ ck = false) →
      ∀ fs, vi.formatStreams.getLast? = some fs →
        play_video_stream dd ck vi = .ok (.legacy fs.url)) := by
  obtain ⟨du, fss⟩ := vi
  refine ⟨?_, ?_⟩
  · intro u
    cases dd <;> cases ck <;> cases du <;> cases hl : fss.getLast? <;>
      simp [play_video_stream, hl]
  · rintro hcond fs hlast
    cases dd <;> cases ck <;> cases du <;> simp_all [play_video_stream]

theorem C6_witness :
    (play_video_stream false true ⟨some "https://i/v.mpd", [⟨"https://i/s1"⟩]⟩ =
      .ok (.dash "https://i/v.mpd")) ∧
    ((false = true ∨
        (⟨none, [⟨"https://i/s1"⟩, ⟨"https://i/s2"⟩]⟩ : VideoInfo).dashUrl = none ∨
        true = false) ∧
      play_video_stream false true ⟨none, [⟨"https://i/s1"⟩, ⟨"https://i/s2"⟩]⟩ =
        .ok (.legacy "https://i/s2")) := by
  constructor
  · exact ((C6_play_video_stream false true _).1 "https://i/v.mpd").2 ⟨rfl, rfl, rfl⟩
  · refine ⟨Or.inr (Or.inl rfl), ?_⟩
    exact (C6_play_video_stream false true _).2 (Or.inr (Or.inl rfl)) ⟨"https://i/s2"⟩ (by decide)

/-- C7: an action name outside the known dispatch set makes run raise the
unknown-action error in the final else branch, before any handler runs, so
the invocation makes no listing or playback collaborator call. -/
theorem C7_unknown_action (a : String) (q vid cid pid : Option String)
    (hnk : a ∉ knownActions) :
    run_dispatch (some a) q vid cid pid = .error (.unknownAction a) ∧
    invocationListingPlaybackCalls (run_dispatch (some a) q vid cid pid) = [] := by
  simp only [knownActions, List.mem_cons, List.not_mem_nil, or_false, not_or] at hnk
  obtain ⟨h0, h1, h2, h3, h4, h5, h6, h7, h8, h9, h10⟩ := hnk
  have hr : run_dispatch (some a) q vid cid pid = .error (.unknownAction a) := by
    simp [run_dispatch, h0, h1, h2, h3, h4, h5, h6, h7, h8, h9, h10]
  refine ⟨hr, ?_⟩
  rw [hr]
  rfl

theorem C7_witness :
    ("frobnicate" ∉ knownActions) ∧
    run_dispatch (some "frobnicate") none none none none =
      .error (.unknownAction "frobnicate") := by
  refine ⟨by decide, (C7_unknown_action "frobnicate" none none none none (by decide)).1⟩

/-- C8: each mutation operation fails with the auth-required error and an
empty request trace (so the mutation request is never issued) when no
credentials are configured; once the login-on-demand prelude succeeds, the
mutation request is issued and the operation fails with the request-failed
error exactly on a non-success response, returning normally on success. -/
theorem C8_auth_mutations (c : Client) (loginOk respOk : Bool) (cid vid : String) :
    (c.username = none → c.authenticated = false →
      subscribe c loginOk respOk cid = (.error .authRequired, []) ∧
      unsubscribe c loginOk respOk cid = (.error .authRequired, []) ∧
      mark_watched c loginOk respOk vid = (.error .authRequired, [])) ∧
    ((c.authenticated = true ∨ (c.username ≠ none ∧ loginOk = true)) →
      respOk = false →
      (subscribe c loginOk respOk cid).1 = .error .requestFailed ∧
      (unsubscribe c loginOk respOk cid).1 = .error .requestFailed ∧
      (mark_watched c loginOk respOk vid).1 = .error .requestFailed) ∧
    ((c.authenticated = true ∨ (c.username ≠ none ∧ loginOk = true)) →
      respOk = true →
      (subscribe c loginOk respOk cid).1 = .ok () ∧
      (unsubscribe c loginOk respOk cid).1 = .ok () ∧
      (mark_watched c loginOk respOk vid).1 = .ok ()) := by
  obtain ⟨auth, user, pass, loc⟩ := c
  refine ⟨?_, ?_, ?_⟩
  · rintro hu ha
    simp only at hu ha
    subst hu ha
    cases loginOk <;> cases respOk <;>
      simp [subscribe, unsubscribe, mark_watched, ensureAuthenticated, Client.login]
  · rintro hpre hresp
    simp only at hpre
    subst hresp
    cases auth <;> cases user <;> cases loginOk <;>
      simp_all [subscribe, unsubscribe, mark_watched, ensureAuthenticated, Client.login]
  · rintro hpre hresp
    simp only at hpre
    subst hresp
    cases auth <;> cases user <;> cases loginOk <;>
      simp_all [subscribe, unsubscribe, mark_watched, ensureAuthenticated, Client.login]

theorem C8_witness :
    ((Client.mk false none none false).username = none ∧
      (Client.mk false none none false).authenticated = false ∧
      subscribe (Client.mk false none none false) true true "c1" =
        (.error .authRequired, [])) ∧
    ((Client.mk true (some "u") (some "p") false).authenticated = true ∧
      (subscribe (Client.mk true (some "u") (some "p") false) true false "c1").1 =
        .error .requestFailed ∧
      (subscribe (Client.mk true (some "u") (some "p") false) true true "c1").1 =
        .ok ()) := by
  refine ⟨⟨rfl, rfl, ?_⟩, ⟨rfl, ?_, ?_⟩⟩
  · exact ((C8_auth_mutations (Client.mk false none none false) true true "c1" "v1").1
      rfl rfl).1
  · exact ((C8_auth_mutations (Client.mk true (some "u") (some "p") false) true false
      "c1" "v1").2.1 (Or.inl rfl) rfl).1
  · exact ((C8_auth_mutations (Client.mk true (some "u") (some "p") false) true true
      "c1" "v1").2.2 (Or.inl rfl) rfl).1

/-- C9 counterexample: with the local setting enabled, credentials
configured and a successful login exchange, fetch_feed does fail (with the
TypeError caused by the unguarded params assignment), but the login POST has
already been issued, so the operation does not fail before any HTTP request
is sent. -/
theorem C9_counterexample :
    fetch_feed (Client.mk false (some "u") (some "p") true) true =
      (.error .typeError, [.loginPost]) ∧
    ([Request.loginPost] : List Request) ≠ [] := by
  exact ⟨rfl, by decide⟩

/-- C9 as amended: with the local setting enabled, every operation that
calls _make_get_request without a params dict fails with a TypeError before
its API GET request is issued; the five unauthenticated operations issue no
HTTP request at all, while fetch_feed and fetch_subscribed_channels fail
after the login-on-demand prelude (so a login POST may already be on the
wire) and never issue any GET request. -/
theorem C9_local_params_typeerror (vid cid pid nm : String) (c : Client)
    (lo : Bool) (hcl : c.localSetting = true) :
    fetch_video_information true vid = (.error .typeError, []) ∧
    fetch_channel_list true cid = (.error .typeError, []) ∧
    fetch_playlist_list true pid = (.error .typeError, []) ∧
    fetch_special_list true nm = (.error .typeError, []) ∧
    fetch_channel_info true cid = (.error .typeError, []) ∧
    (c.authenticated = true →
      fetch_feed c lo = (.error .typeError, []) ∧
      fetch_subscribed_channels c lo = (.error .typeError, [])) ∧
    (c.authenticated = false → c.username ≠ none → lo = true →
      fetch_feed c lo = (.error .typeError, [.loginPost]) ∧
      fetch_subscribed_channels c lo = (.error .typeError, [.loginPost])) ∧
    (∀ p ps, Request.get p ps ∉ (fetch_feed c lo).2 ∧
      Request.get p ps ∉ (fetch_subscribed_channels c lo).2) := by
  obtain ⟨auth, user, pass, loc⟩ := c
  simp only at hcl
  subst hcl
  refine ⟨rfl, rfl, rfl, rfl, rfl, ?_, ?_, ?_⟩
  · rintro ha
    simp only at ha
    subst ha
    simp [fetch_feed, fetch_subscribed_channels, ensureAuthenticated,
      make_get_request]
  · rintro ha hu hl
    simp only at ha
    subst ha hl
    cases user with
    | none => exact absurd rfl hu
    | some u =>
      simp [fetch_feed, fetch_subscribed_channels, ensureAuthenticated,
        Client.login, make_get_request]
  · intro p ps
    cases auth <;> cases user <;> cases lo <;>
      simp [fetch_feed, fetch_subscribed_channels, ensureAuthenticated,
        Client.login, make_get_request]

theorem C9_witness :
    ((Client.mk true (some "u") (some "p") true).localSetting = true ∧
      fetch_video_information true "v1" = (.error .typeError, [])) ∧
    ((Client.mk true (some "u") (some "p") true).authenticated = true ∧
      fetch_feed (Client.mk true (some "u") (some "p") true) true =
        (.error .typeError, [])) := by
  refine ⟨⟨rfl, ?_⟩, ⟨rfl, ?_⟩⟩
  · exact (C9_local_params_typeerror "v1" "c1" "p1" "trending"
      (Client.mk true (some "u") (some "p") true) true rfl).1
  · exact ((C9_local_params_typeerror "v1" "c1" "p1" "trending"
      (Client.mk true (some "u") (some "p") true) true rfl).2.2.2.2.2.1 rfl).1

theorem parseItem_video_eval (noDesc : String) (item : Item) (len : Int)
    (ts : List Thumb) (v ti au : String)
    (htype : item.type = none ∨ item.type = some "video" ∨ item.type = some "shortVideo")
    (hlen : item.lengthSeconds = some len)
    (hts : item.videoThumbnails = some ts)
    (hv : item.videoId = some v) (hti : item.title = some ti)
    (hau : item.author = some au) :
    parseItem noDesc item =
      if 0 < len then
        match selectVideoThumb ts with
        | .ok u => .ok (some (.video ⟨"video", v, u, ti, au,
            item.description.getD noDesc, item.viewCount.getD (-1),
            item.published.getD 0, len⟩))
        | .error e => .error e
      else .ok none := by
  have hcond : (item.type = none ∨ item.type = some "video" ∨
      item.type = some "shortVideo") = True := by simp [htype]
  by_cases hp : 0 < len
  · cases hsel : selectVideoThumb ts with
    | ok u =>
      simp [parseItem, hcond, getKey, hlen, hts, hv, hti, hau, hsel, hp,
        exceptBind_ok, exceptPure, show ¬ len ≤ 0 by omega]
    | error e =>
      simp [parseItem, hcond, getKey, hlen, hts, hv, hti, hau, hsel, hp,
        exceptBind_ok, exceptBind_error, exceptPure, show ¬ len ≤ 0 by omega]
  · simp [parseItem, hcond, getKey, hlen, hp, exceptBind_ok, exceptPure,
      show len ≤ 0 by omega]


theorem selectVideoThumb_ok_of_ne_nil (ts : List Thumb) (hne : ts ≠ []) :
    ∃ u, selectVideoThumb ts = .ok u := by
  unfold selectVideoThumb
  cases hf : ts.find? (fun t => t.quality == "high") with
  | some t => exact ⟨t.url, rfl⟩
  | none =>
    cases hl : ts.getLast? with
    | some t => exact ⟨t.url, rfl⟩
    | none => exact absurd (List.getLast?_eq_none_iff.mp hl) hne

theorem find?_of_first {α : Type} (p : α → Bool) (pre : List α) (t : α)
    (post : List α) (hpre : ∀ x ∈ pre, p x = false) (ht : p t = true) :
    (pre ++ t :: post).find? p = some t := by
  induction pre with
  | nil => simp [List.find?_cons, ht]
  | cons a l ih =>
    have ha := hpre a (List.mem_cons_self a l)
    simp only [List.cons_append, List.find?_cons, ha]
    exact ih fun x hx => hpre x (List.mem_cons_of_mem a hx)

theorem maxAvatar_isSome (a : AuthorThumb) (t : List AuthorThumb) :
    ∃ m, maxAvatar (a :: t) = some m := by
  unfold maxAvatar
  cases maxAvatar t with
  | none => exact ⟨a, rfl⟩
  | some m =>
    by_cases h : m.height > a.height
    · exact ⟨m, by simp [h]⟩
    · exact ⟨a, by simp [h]⟩

theorem maxAvatar_spec (l : List AuthorThumb) (m : AuthorThumb)
    (h : maxAvatar l = some m) :
    ∃ pre post, l = pre ++ m :: post ∧ (∀ t ∈ pre, t.height < m.height) ∧
      ∀ t ∈ l, t.height ≤ m.height := by
  induction l generalizing m with
  | nil => exact absurd h (by simp [maxAvatar])
  | cons a t ih =>
    rw [maxAvatar] at h
    cases hmt : maxAvatar t with
    | none =>
      rw [hmt] at h
      cases t with
      | nil =>
        obtain rfl : a = m := by simpa using h
        exact ⟨[], [], rfl, by simp, by simp⟩
      | cons b t2 =>
        obtain ⟨m2, hm2⟩ := maxAvatar_isSome b t2
        rw [hm2] at hmt
        cases hmt
    | some m2 =>
      rw [hmt] at h
      have h2 : (if m2.height > a.height then some m2 else some a) = some m := h
      obtain ⟨pre2, post2, hsplit, hpre2, hall2⟩ := ih m2 hmt
      by_cases hgt : m2.height > a.height
      · rw [if_pos hgt] at h2
        obtain rfl : m2 = m := by simpa using h2
        refine ⟨a :: pre2, post2, by simp [hsplit], ?_, ?_⟩
        · intro x hx
          rcases List.mem_cons.mp hx with rfl | hx2
          · exact hgt
          · exact hpre2 x hx2
        · intro x hx
          rcases List.mem_cons.mp hx with rfl | hx2
          · exact le_of_lt hgt
          · exact hall2 x hx2
      · rw [if_neg hgt] at h2
        obtain rfl : a = m := by simpa using h2
        refine ⟨[], t, rfl, by simp, ?_⟩
        intro x hx
        rcases List.mem_cons.mp hx with rfl | hx2
        · exact le_refl _
        · exact le_trans (hall2 x hx2) (by omega)

/-- The comparator of the embedded stable descending sort of
sorted(key=height, reverse=True). -/
def avatarGe (a b : AuthorThumb) : Bool := decide (a.height ≥ b.height)

theorem avatarGe_trans (a b c : AuthorThumb) (h1 : avatarGe a b = true)
    (h2 : avatarGe b c = true) : avatarGe a c = true := by
  simp only [avatarGe, decide_eq_true_eq] at h1 h2 ⊢
  omega

theorem avatarGe_total (a b : AuthorThumb) : (avatarGe a b || avatarGe b a) = true := by
  simp only [avatarGe, Bool.or_eq_true, decide_eq_true_eq]
  omega

/-- Faithfulness of maxAvatar to the source: it is the head of the stable
descending merge sort by height, which is what sorted(reverse=True)[0]
computes in Python (except that the Python indexing raises on the empty
list, where this returns none). -/
theorem maxAvatar_eq_head_mergeSort (l : List AuthorThumb) :
    maxAvatar l = (l.mergeSort avatarGe).head? := by
  induction l with
  | nil => simp [maxAvatar, List.mergeSort_nil]
  | cons a t ih =>
    obtain ⟨l1, l2, he, ht, hlt⟩ :=
      List.mergeSort_cons avatarGe_trans avatarGe_total a t
    cases l1 with
    | nil =>
      simp only [List.nil_append] at he ht
      have hs := List.sorted_mergeSort avatarGe_trans avatarGe_total (a :: t)
      rw [he] at hs
      rw [maxAvatar, ih, ht, he]
      cases l2 with
      | nil => rfl
      | cons b l2t =>
        have hab : avatarGe a b = true :=
          (List.pairwise_cons.mp hs).1 b (List.mem_cons_self b l2t)
        simp only [avatarGe, decide_eq_true_eq] at hab
        simp [List.head?, if_neg (by omega : ¬ b.height > a.height)]
    | cons c l1t =>
      simp only [List.cons_append] at he ht
      have hac : (!avatarGe a c) = true := hlt c (List.mem_cons_self c l1t)
      simp only [Bool.not_eq_eq_eq_not, Bool.not_true, avatarGe,
        decide_eq_false_iff_not] at hac
      rw [maxAvatar, ih, ht, he]
      simp [List.head?, if_pos (by omega : c.height > a.height)]


theorem parseItem_channel_eval (noDesc : String) (item : Item)
    (avs : List AuthorThumb) (m : AuthorThumb) (aid au de : String)
    (ve : Bool) (sc : Int)
    (htype : item.type = some "channel")
    (havs : item.authorThumbnails = some avs)
    (hm : maxAvatar avs = some m)
    (haid : item.authorId = some aid) (hau : item.author = some au)
    (hde : item.description = some de) (hve : item.authorVerified = some ve)
    (hsc : item.subCount = some sc) :
    parseItem noDesc item =
      .ok (some (.channel ⟨"channel", aid, "https:" ++ m.url, au, de, ve, sc⟩)) := by
  simp [parseItem, htype, getKey, havs, hm, haid, hau, hde, hve, hsc,
    exceptBind_ok, exceptPure]

theorem parseItem_yield_type (noDesc : String) (item : Item)
    (r : InvidiousApiResponse) (h : parseItem noDesc item = .ok (some r)) :
    resultType r = "video" ∨ resultType r = "channel" ∨ resultType r = "playlist" := by
  unfold parseItem at h
  simp only [getKey, bind, Except.bind, pure, Except.pure, throw, throwThe,
    MonadExceptOf.throw] at h
  repeat' split at h
  all_goals
    first
    | (simp only [Except.ok.injEq, Option.some.injEq] at h
       subst h
       simp [resultType])
    | simp at h

theorem parseListResponse_mem (noDesc : String) (items : List Item)
    (rs : List InvidiousApiResponse) (h : parseListResponse noDesc items = .ok rs)
    (r : InvidiousApiResponse) (hr : r ∈ rs) :
    ∃ item, item ∈ items ∧ parseItem noDesc item = .ok (some r) := by
  induction items generalizing rs with
  | nil =>
    simp only [parseListResponse] at h
    obtain rfl : ([] : List InvidiousApiResponse) = rs := by simpa using h
    simp at hr
  | cons it rest ih =>
    simp only [parseListResponse] at h
    cases hpi : parseItem noDesc it with
    | error e =>
      simp only [hpi, exceptBind_error] at h
      cases h
    | ok o =>
      simp only [hpi, exceptBind_ok] at h
      cases hpr : parseListResponse noDesc rest with
      | error e =>
        simp only [hpr, exceptBind_error] at h
        cases h
      | ok rs2 =>
        simp only [hpr, exceptBind_ok] at h
        cases o with
        | some x =>
          obtain rfl : x :: rs2 = rs := by simpa [exceptPure] using h
          rcases List.mem_cons.mp hr with rfl | hr2
          · exact ⟨it, List.mem_cons_self it rest, hpi⟩
          · obtain ⟨item2, hi2, hp2⟩ := ih rs2 hpr hr2
            exact ⟨item2, List.mem_cons_of_mem it hi2, hp2⟩
        | none =>
          obtain rfl : rs2 = rs := by simpa [exceptPure] using h
          obtain ⟨item2, hi2, hp2⟩ := ih rs2 hpr hr
          exact ⟨item2, List.mem_cons_of_mem it hi2, hp2⟩


/-- C1: for an item whose type is absent or video or shortVideo (with its
required keys present and a non-empty thumbnail list), the parser yields a
video-tagged record exactly when lengthSeconds is positive, skips the item
entirely otherwise, and defaults a missing description to the canned string,
a missing view count to -1 and a missing publish date to 0. -/
theorem C1_video_items (noDesc : String) (item : Item) (len : Int)
    (ts : List Thumb)
    (htype : item.type = none ∨ item.type = some "video" ∨
      item.type = some "shortVideo")
    (hlen : item.lengthSeconds = some len) (hts : item.videoThumbnails = some ts)
    (hne : ts ≠ []) (hvi : item.videoId.isSome) (hti : item.title.isSome)
    (hau : item.author.isSome) :
    ((∃ v, parseItem noDesc item = .ok (some (.video v))) ↔ 0 < len) ∧
    (len ≤ 0 → parseItem noDesc item = .ok none) ∧
    (∀ r, parseItem noDesc item = .ok (some r) → ∃ v, r = .video v) ∧
    (∀ v, parseItem noDesc item = .ok (some (.video v)) →
      v.type = "video" ∧ v.duration = len ∧
      (item.description = none → v.description = noDesc) ∧
      (item.viewCount = none → v.view_count = -1) ∧
      (item.published = none → v.published = 0)) := by
  obtain ⟨v0, hvi⟩ := Option.isSome_iff_exists.mp hvi
  obtain ⟨ti0, hti⟩ := Option.isSome_iff_exists.mp hti
  obtain ⟨au0, hau⟩ := Option.isSome_iff_exists.mp hau
  obtain ⟨u0, hsel⟩ := selectVideoThumb_ok_of_ne_nil ts hne
  have heval := parseItem_video_eval noDesc item len ts v0 ti0 au0 htype hlen
    hts hvi hti hau
  rw [hsel] at heval
  by_cases hp : 0 < len
  · rw [if_pos hp] at heval
    have heval2 : parseItem noDesc item = .ok (some (.video ⟨"video", v0, u0,
        ti0, au0, item.description.getD noDesc, item.viewCount.getD (-1),
        item.published.getD 0, len⟩)) := heval
    refine ⟨⟨fun _ => hp, fun _ => ⟨_, heval2⟩⟩, fun hle => absurd hp (by omega),
      ?_, ?_⟩
    · intro r hr
      rw [heval2] at hr
      obtain rfl : _ = r := by
        simpa only [Except.ok.injEq, Option.some.injEq] using hr
      exact ⟨_, rfl⟩
    · intro v hv
      rw [heval2] at hv
      obtain rfl : _ = v := by
        simpa only [Except.ok.injEq, Option.some.injEq,
          InvidiousApiResponse.video.injEq] using hv
      refine ⟨rfl, rfl, ?_, ?_, ?_⟩
      · intro hd
        simp [hd]
      · intro hvc
        simp [hvc]
      · intro hpub
        simp [hpub]
  · rw [if_neg hp] at heval
    refine ⟨⟨?_, fun h => absurd h hp⟩, fun _ => heval, ?_, ?_⟩
    · rintro ⟨v, hv⟩
      rw [heval] at hv
      simp at hv
    · intro r hr
      rw [heval] at hr
      simp at hr
    · intro v hv
      rw [heval] at hv
      simp at hv

theorem C1_witness :
    ∃ v, parseItem "no description" samplePlaylistVideoItem =
      .ok (some (.video v)) := by
  exact (C1_video_items "no description" samplePlaylistVideoItem 45
    [⟨"medium", "https://t/m.jpg"⟩] (Or.inl rfl) rfl rfl (by decide) rfl rfl
    rfl).1.mpr (by decide)

/-- C2: for a yielded video item, the chosen thumbnail URL is that of the
first thumbnail entry whose declared quality is high, whatever its position;
when no entry has quality high it is the URL of the last entry. -/
theorem C2_thumbnail_selection (noDesc : String) (item : Item) (len : Int)
    (ts : List Thumb)
    (htype : item.type = none ∨ item.type = some "video" ∨
      item.type = some "shortVideo")
    (hlen : item.lengthSeconds = some len) (hpos : 0 < len)
    (hts : item.videoThumbnails = some ts) (hvi : item.videoId.isSome)
    (hti : item.title.isSome) (hau : item.author.isSome) :
    (∀ pre t post, ts = pre ++ t :: post → t.quality = "high" →
      (∀ x ∈ pre, x.quality ≠ "high") →
      ∃ v, parseItem noDesc item = .ok (some (.video v)) ∧
        v.thumbnail_url = t.url) ∧
    ((∀ x ∈ ts, x.quality ≠ "high") → ∀ tl, ts.getLast? = some tl →
      ∃ v, parseItem noDesc item = .ok (some (.video v)) ∧
        v.thumbnail_url = tl.url) := by
  obtain ⟨v0, hvi⟩ := Option.isSome_iff_exists.mp hvi
  obtain ⟨ti0, hti⟩ := Option.isSome_iff_exists.mp hti
  obtain ⟨au0, hau⟩ := Option.isSome_iff_exists.mp hau
  have heval := parseItem_video_eval noDesc item len ts v0 ti0 au0 htype hlen
    hts hvi hti hau
  rw [if_pos hpos] at heval
  constructor
  · intro pre t post hsplit hq hpre
    have hfind : ts.find? (fun x => x.quality == "high") = some t := by
      subst hsplit
      exact find?_of_first _ pre t post
        (fun x hx => by simpa using hpre x hx) (by simp [hq])
    have hsel : selectVideoThumb ts = .ok t.url := by
      unfold selectVideoThumb
      rw [hfind]
    rw [hsel] at heval
    exact ⟨_, heval, rfl⟩
  · intro hnone tl hlast
    have hfind : ts.find? (fun x => x.quality == "high") = none := by
      rw [List.find?_eq_none]
      intro x hx
      simpa using hnone x hx
    have hsel : selectVideoThumb ts = .ok tl.url := by
      unfold selectVideoThumb
      rw [hfind, hlast]
    rw [hsel] at heval
    exact ⟨_, heval, rfl⟩

theorem C2_witness :
    ∃ v, parseItem "nd" sampleSearchVideoItem =
      .ok (some (.video v)) ∧ v.thumbnail_url = "https://t/hi.jpg" := by
  exact (C2_thumbnail_selection "nd" sampleSearchVideoItem 60
    [⟨"low", "https://t/lo.jpg"⟩, ⟨"high", "https://t/hi.jpg"⟩,
      ⟨"maxres", "https://t/mx.jpg"⟩] (Or.inr (Or.inl rfl)) rfl (by decide)
    rfl rfl rfl rfl).1 [⟨"low", "https://t/lo.jpg"⟩]
    ⟨"high", "https://t/hi.jpg"⟩ [⟨"maxres", "https://t/mx.jpg"⟩] rfl rfl
    (by decide)

/-- C3 counterexample: a channel item whose selected avatar URL is already
absolute is not returned unchanged; the code prefixes https: unconditionally
and produces a URL with two schemes. -/
theorem C3_counterexample :
    parseItem "nd" sampleAbsoluteChannelItem =
      .ok (some (.channel ⟨"channel", "cid", "https:https://example.com/a.jpg",
        "Chan", "d", true, 5⟩)) ∧
    "https:https://example.com/a.jpg" ≠ "https://example.com/a.jpg" := by
  exact ⟨by decide, by decide⟩

/-- C3 as amended: the parser selects the avatar entry of maximal declared
height, first such entry on ties, and prefixes https: to the selected URL
unconditionally (which normalizes the protocol-relative URLs the search API
returns, but would mangle an already-absolute URL rather than return it
unchanged). -/
theorem C3_channel_avatar (noDesc : String) (item : Item)
    (avs : List AuthorThumb)
    (htype : item.type = some "channel")
    (havs : item.authorThumbnails = some avs) (hne : avs ≠ [])
    (haid : item.authorId.isSome) (hau : item.author.isSome)
    (hde : item.description.isSome) (hve : item.authorVerified.isSome)
    (hsc : item.subCount.isSome) :
    ∃ m ch pre post, parseItem noDesc item = .ok (some (.channel ch)) ∧
      maxAvatar avs = some m ∧ ch.thumbnail_url = "https:" ++ m.url ∧
      avs = pre ++ m :: post ∧ (∀ t ∈ pre, t.height < m.height) ∧
      ∀ t ∈ avs, t.height ≤ m.height := by
  obtain ⟨aid, haid⟩ := Option.isSome_iff_exists.mp haid
  obtain ⟨au0, hau⟩ := Option.isSome_iff_exists.mp hau
  obtain ⟨de0, hde⟩ := Option.isSome_iff_exists.mp hde
  obtain ⟨ve0, hve⟩ := Option.isSome_iff_exists.mp hve
  obtain ⟨sc0, hsc⟩ := Option.isSome_iff_exists.mp hsc
  obtain ⟨a0, t0, rfl⟩ : ∃ a0 t0, avs = a0 :: t0 := by
    cases avs with
    | nil => exact absurd rfl hne
    | cons a t => exact ⟨a, t, rfl⟩
  obtain ⟨m, hm⟩ := maxAvatar_isSome a0 t0
  obtain ⟨pre, post, hsplit, hpre, hall⟩ := maxAvatar_spec _ m hm
  exact ⟨m, _, pre, post,
    parseItem_channel_eval noDesc item _ m aid au0 de0 ve0 sc0 htype havs hm
      haid hau hde hve hsc,
    hm, rfl, hsplit, hpre, hall⟩

theorem C3_witness :
    ∃ m ch pre post, parseItem "nd" sampleChannelItem =
      .ok (some (.channel ch)) ∧
      maxAvatar sampleAvatars = some m ∧
      ch.thumbnail_url = "https:" ++ m.url ∧
      sampleAvatars = pre ++ m :: post ∧
      (∀ t ∈ pre, t.height < m.height) ∧
      ∀ t ∈ sampleAvatars, t.height ≤ m.height := by
  exact C3_channel_avatar "nd" sampleChannelItem sampleAvatars rfl rfl
    (by decide) rfl rfl rfl rfl rfl

/-- C10: every record the parser yields is tagged video, channel or
playlist, so the unknown-result-type branch of display_search_results cannot
fire on parser output; an item with an unrecognized type is skipped, never
yielded. -/
theorem C10_parser_tags (noDesc : String) (items : List Item)
    (rs : List InvidiousApiResponse)
    (h : parseListResponse noDesc items = .ok rs) :
    (∀ r ∈ rs, resultType r ∈ (["video", "channel", "playlist"] : List String) ∧
      displayUnknownTypeCheck r = false) ∧
    (∀ item t, item.type = some t →
      t ∉ (["video", "shortVideo", "channel", "playlist"] : List String) →
      parseItem noDesc item = .ok none) := by
  constructor
  · intro r hr
    obtain ⟨item, hmem, hpi⟩ := parseListResponse_mem noDesc items rs h r hr
    rcases parseItem_yield_type noDesc item r hpi with ht | ht | ht <;>
      simp [displayUnknownTypeCheck, ht]
  · intro item t htype hnot
    simp only [List.mem_cons, List.not_mem_nil, or_false, not_or] at hnot
    obtain ⟨h1, h2, h3, h4⟩ := hnot
    simp [parseItem, htype, h1, h2, h3, h4, exceptPure]

theorem C10_witness :
    parseListResponse "nd" sampleMixedItems = .ok sampleMixedResults ∧
    ∀ r ∈ sampleMixedResults,
      resultType r ∈ (["video", "channel", "playlist"] : List String) ∧
      displayUnknownTypeCheck r = false := by
  refine ⟨by decide, (C10_parser_tags "nd" sampleMixedItems sampleMixedResults
    (by decide)).1⟩

end Invidious
